import Mathlib

/-!
Verification development for the coralpages page-composition engine.

The Rust sources are embedded shallowly: pure functions become Lean
functions, stateful code threads explicit state, machine integers become
Nat, fallible code returns `Except`.  External libraries (minijinja,
serde, reqwest, the filesystem) are modelled as oracle parameters, since
they are not code of this repository.  Rust `HashMap`s are modelled as
association lists holding the (unspecified) iteration sequence of the
map: `insertAssoc` mirrors `HashMap::insert` (replace at existing key,
otherwise add), and iteration walks the list in order.
-/

namespace Coralpages

/-- Association-list lookup, modelling `HashMap::get` on string keys. -/
def lookupAssoc {α : Type} : List (String × α) → String → Option α
  | [], _ => none
  | (k, v) :: rest, key => if k = key then some v else lookupAssoc rest key

/-- Association-list insert, modelling `HashMap::insert`: replaces the value
at an existing key, otherwise appends a new entry. -/
def insertAssoc {α : Type} (key : String) (value : α) :
    List (String × α) → List (String × α)
  | [] => [(key, value)]
  | (k, v) :: rest =>
    if k = key then (key, value) :: rest else (k, v) :: insertAssoc key value rest

/-- From src/page/types.rs: `MetaDefinition { name, content }`. -/
structure MetaDefinition where
  name : String
  content : String
deriving DecidableEq

/-- From src/page/types.rs: `WidgetEditorOption { label, value, icon }`. -/
structure WidgetEditorOption where
  label : String
  value : String
  icon : String
deriving DecidableEq

/-- From src/page/types.rs: `WidgetEditor { editor_type, label, name, placeholder, options }`. -/
structure WidgetEditor where
  editor_type : String
  label : String
  name : String
  placeholder : String
  options : List WidgetEditorOption
deriving DecidableEq

/-- From src/page/types.rs: `Widget { name, description, icon, html, css, editor }`. -/
structure Widget where
  name : String
  description : String
  icon : String
  html : String
  css : String
  editor : List WidgetEditor
deriving DecidableEq

instance : Inhabited Widget := ⟨⟨"", "", "", "", "", []⟩⟩

mutual

/-- From src/page/types.rs: `Element { id, widget, data, children, style }`.
`data` is a `serde_json::Value` in the source; it is modelled as the string
map that the code (src/store/code.rs, the renderer context) reads out of it.
`Element` and its child list form a mutual inductive so that all tree
recursions below are structural and kernel-reducible. -/
inductive Element where
  | mk (id : String) (widget : String) (data : List (String × String))
      (style : List (String × String)) (children : ElementList)

/-- A list of elements, mutual with `Element`. -/
inductive ElementList where
  | nil
  | cons (head : Element) (tail : ElementList)

end

/-- Projection for `Element.id`. -/
def Element.id : Element → String
  | .mk i _ _ _ _ => i

/-- Projection for `Element.widget`. -/
def Element.widget : Element → String
  | .mk _ w _ _ _ => w

/-- Projection for `Element.data`. -/
def Element.data : Element → List (String × String)
  | .mk _ _ d _ _ => d

/-- Projection for `Element.style`. -/
def Element.style : Element → List (String × String)
  | .mk _ _ _ s _ => s

/-- Projection for `Element.children`. -/
def Element.children : Element → ElementList
  | .mk _ _ _ _ c => c

/-- Length of an `ElementList`. -/
def ElementList.length : ElementList → Nat
  | .nil => 0
  | .cons _ tl => tl.length + 1

/-- From src/page/types.rs: the `Page` record (the `elapsed`-free data part). -/
structure Page where
  title : String
  path : String
  store : String
  url : Option String
  template : Option String
  children : ElementList
  cache : List String
  last_modified : Option String
  meta : List MetaDefinition
  css_variables : List (String × String)

/-- From src/page/types.rs: `Page::new()`. -/
def Page.new : Page :=
  { title := "", path := "", store := "", url := none, template := none,
    children := .nil, cache := [], last_modified := none, meta := [],
    css_variables := [] }

/-- From src/renderer/renderedpage.rs: the `RenderedPage` record.  The
`elapsed : std::time::Instant` field (a wall-clock stamp) is omitted; errors
are modelled by their message strings. -/
structure RenderedPage where
  path : String
  store : String
  title : String
  body : String
  headers : List (String × String)
  response_code : Nat
  meta : List MetaDefinition
  css_variables : List (String × String)
  errors : List String
deriving DecidableEq

/-- From src/renderer/renderedpage.rs: `RenderedPage::new()`. -/
def RenderedPage.new : RenderedPage :=
  { path := "", store := "", title := "", body := "", headers := [],
    response_code := 200, meta := [], css_variables := [], errors := [] }

/-- From src/renderer/renderedpage.rs lines 42-56: `RenderedPage::get_css`.
Iterates the `css_variables` map in its iteration order, emits the value
verbatim when the key starts with `--` and otherwise the block
`"<key> \x7b\n <value>\n \x7d\n"`, and joins the fragments with `"\n"`.
There is no sorting step in the source. -/
def RenderedPage.get_css (rp : RenderedPage) : String :=
  String.intercalate "\n" (rp.css_variables.map (fun kv =>
    if kv.1.startsWith "--" then kv.2
    else kv.1 ++ " \x7b\n " ++ kv.2 ++ "\n \x7d\n"))

/-- Lexicographic (code-point) order on char lists, as a boolean. -/
def charListLe : List Char → List Char → Bool
  | [], _ => true
  | _ :: _, [] => false
  | a :: as, b :: bs =>
    if a.toNat < b.toNat then true
    else if b.toNat < a.toNat then false
    else charListLe as bs

/-- Lexicographic order on strings, as a boolean. -/
def strLe (a b : String) : Bool := charListLe a.data b.data

/-- Insertion of a string into a lexicographically sorted list. -/
def insertSortedString (s : String) : List String → List String
  | [] => [s]
  | t :: ts => if strLe s t then s :: t :: ts else t :: insertSortedString s ts

/-- Lexicographic insertion sort on strings. -/
def sortStrings : List String → List String
  | [] => []
  | s :: ss => insertSortedString s (sortStrings ss)

/-- Modelled from the spec wording for CSS emission: the same per-entry
fragments as `RenderedPage.get_css`, but sorted lexicographically before
being joined with `"\n"`.  Used to compare the source behaviour against the
specified one. -/
def get_css_sorted_spec (rp : RenderedPage) : String :=
  String.intercalate "\n" (sortStrings (rp.css_variables.map (fun kv =>
    if kv.1.startsWith "--" then kv.2
    else kv.1 ++ " \x7b\n " ++ kv.2 ++ "\n \x7d\n")))

/-- Concrete rendered page whose css_variables iteration sequence lists key
`"b"` before key `"a"`. -/
def cssPageBA : RenderedPage :=
  { RenderedPage.new with css_variables := [("b", "B"), ("a", "A")] }

/-- Concrete rendered page with the same css_variables entries as
`cssPageBA` but the opposite iteration sequence. -/
def cssPageAB : RenderedPage :=
  { RenderedPage.new with css_variables := [("a", "A"), ("b", "B")] }

/-- The mutable renderer state of src/renderer/renderedpage.rs: the two
fields of the ambient `RenderedPage` that `render_element` and
`render_widget` update (`css_variables` and `errors`). -/
structure RState where
  css_variables : List (String × String)
  errors : List String
deriving DecidableEq

/-- The template engine oracle: stands for compiling `widget.html` with
minijinja (`env.template_from_str`) and rendering it with the context built
from the element's data, its id and the ambient context with the rendered
children.  Both failure points return the error in `Except`. -/
abbrev Engine := Widget → Element → List String → Except String String

/-- The widget lookup oracle: stands for
`store.load_widget_definition(element.widget)`, which can fail (`.error`)
or report a missing widget (`.ok none`). -/
abbrev WidgetLookup := String → Except String (Option Widget)

/-- From src/renderer/renderedpage.rs lines 185-191: the join of the
element's style map into `"k: v;"` lines. -/
def styleCss (style : List (String × String)) : String :=
  String.intercalate "\n" (style.map (fun kv => kv.1 ++ ": " ++ kv.2 ++ ";"))

/-- From src/renderer/renderedpage.rs lines 141-199:
`RenderedingPageData::render_widget`.  On engine failure the error is
returned with the state untouched; on success `--<widget.name>` is inserted
into `css_variables`, and `#<element.id>` is inserted when the element has a
non-empty id and a non-empty style map. -/
def render_widget (engine : Engine) (w : Widget) (e : Element)
    (children : List String) (st : RState) : Except String String × RState :=
  match engine w e children with
  | .error err => (.error err, st)
  | .ok rendered =>
    let st1 : RState :=
      { st with css_variables := insertAssoc ("--" ++ w.name) w.css st.css_variables }
    let st2 : RState :=
      if e.id = "" then st1
      else if e.style.isEmpty then st1
      else { st1 with
              css_variables := insertAssoc ("#" ++ e.id) (styleCss e.style) st1.css_variables }
    (.ok rendered, st2)

mutual

/-- From src/renderer/renderedpage.rs lines 99-139:
`RenderedingPageData::render_element`.  Resolves the widget (a failed or
missing lookup is fatal even in debug mode), renders the children left to
right, then renders the widget; a widget-render failure is caught in debug
mode (`dbg` models `config::get_debug()`): the output is replaced by a red
`<pre>` box with the escaped error (`esc` models `minijinja::HtmlEscape`)
and the error is appended to the ambient errors list. -/
def render_element (lookup : WidgetLookup) (engine : Engine) (esc : String → String)
    (dbg : Bool) : Element → RState → Except String String × RState
  | .mk i wname d s cs, st =>
    match lookup wname with
    | .error err => (.error err, st)
    | .ok none => (.error ("Widget not found: " ++ wname), st)
    | .ok (some w) =>
      match render_children lookup engine esc dbg cs st with
      | (.error err, st1) => (.error err, st1)
      | (.ok kids, st1) =>
        match render_widget engine w (.mk i wname d s cs) kids st1 with
        | (.ok rendered, st2) => (.ok rendered, st2)
        | (.error err, st2) =>
          if dbg then
            (.ok ("<pre style=\"color:red;\">" ++ esc err ++ "</pre>"),
             { st2 with errors := st2.errors ++ [err] })
          else (.error err, st2)

/-- The child loop of `render_element` (src/renderer/renderedpage.rs lines
111-116): renders each child in order, collecting the HTML fragments; the
first propagated error aborts the loop. -/
def render_children (lookup : WidgetLookup) (engine : Engine) (esc : String → String)
    (dbg : Bool) : ElementList → RState → Except String (List String) × RState
  | .nil, st => (.ok [], st)
  | .cons c rest, st =>
    match render_element lookup engine esc dbg c st with
    | (.error err, st1) => (.error err, st1)
    | (.ok s, st1) =>
      match render_children lookup engine esc dbg rest st1 with
      | (.error err, st2) => (.error err, st2)
      | (.ok ss, st2) => (.ok (s :: ss), st2)

end

/-- From src/renderer/renderedpage.rs lines 67-97 and
src/renderer/renderer.rs lines 39-45: `RenderedingPageData::new` plus
`render` plus `PageRenderer::render_page`.  The fresh rendered page takes
`path` and `title` from the page; the top-level children are rendered in
order and concatenated into `body`; the page's meta entries are appended;
any propagated error aborts the whole render. -/
def render_page (lookup : WidgetLookup) (engine : Engine) (esc : String → String)
    (dbg : Bool) (page : Page) : Except String RenderedPage :=
  match render_children lookup engine esc dbg page.children ⟨[], []⟩ with
  | (.error err, _) => .error err
  | (.ok fragments, st) =>
    .ok { RenderedPage.new with
          path := page.path,
          title := page.title,
          body := String.join fragments,
          meta := page.meta,
          css_variables := st.css_variables,
          errors := st.errors }

/-- The widget an element resolves to under a lookup oracle (the `Some`
payload; `default` outside the domain covered by `allResolve`). -/
def widgetOf (lookup : WidgetLookup) (e : Element) : Widget :=
  match lookup e.widget with
  | .ok (some w) => w
  | _ => default

mutual

/-- Whether the widget of every element of the tree resolves (lookup
returns `.ok (some _)`): the hypothesis under which the only render
failures are template errors. -/
def allResolve (lookup : WidgetLookup) : Element → Bool
  | .mk _ wname _ _ cs =>
    (match lookup wname with
     | .ok (some _) => true
     | _ => false) && allResolveList lookup cs

/-- `allResolve` over an element list. -/
def allResolveList (lookup : WidgetLookup) : ElementList → Bool
  | .nil => true
  | .cons c cs => allResolve lookup c && allResolveList lookup cs

end

mutual

/-- The output of one element in debug mode, assuming all widgets resolve:
the engine output on success, the red `<pre>` error box on failure. -/
def debugOut (lookup : WidgetLookup) (engine : Engine) (esc : String → String) :
    Element → String
  | .mk i wname d s cs =>
    match engine (widgetOf lookup (.mk i wname d s cs)) (.mk i wname d s cs)
        (debugOuts lookup engine esc cs) with
    | .ok rendered => rendered
    | .error err => "<pre style=\"color:red;\">" ++ esc err ++ "</pre>"

/-- `debugOut` over an element list. -/
def debugOuts (lookup : WidgetLookup) (engine : Engine) (esc : String → String) :
    ElementList → List String
  | .nil => []
  | .cons c cs => debugOut lookup engine esc c :: debugOuts lookup engine esc cs

end

mutual

/-- The error messages a debug-mode render of one element appends, in
order: those of its children followed by its own engine failure, if any. -/
def errsOf (lookup : WidgetLookup) (engine : Engine) (esc : String → String) :
    Element → List String
  | .mk i wname d s cs =>
    errsOfList lookup engine esc cs ++
      (match engine (widgetOf lookup (.mk i wname d s cs)) (.mk i wname d s cs)
          (debugOuts lookup engine esc cs) with
       | .ok _ => []
       | .error err => [err])

/-- `errsOf` over an element list. -/
def errsOfList (lookup : WidgetLookup) (engine : Engine) (esc : String → String) :
    ElementList → List String
  | .nil => []
  | .cons c cs => errsOf lookup engine esc c ++ errsOfList lookup engine esc cs

end

/-- The number of engine failures a debug-mode render of an element tree
encounters. -/
def failCount (lookup : WidgetLookup) (engine : Engine) (esc : String → String)
    (e : Element) : Nat :=
  (errsOf lookup engine esc e).length

/-- The number of engine failures a debug-mode render of an element list
encounters. -/
def failCountList (lookup : WidgetLookup) (engine : Engine) (esc : String → String)
    (es : ElementList) : Nat :=
  (errsOfList lookup engine esc es).length

/-- Whether a string starts with a decimal digit
(`id.chars().next().unwrap().is_digit(10)` guarded by non-emptiness). -/
def startsWithDigit (s : String) : Bool :=
  match s.data with
  | [] => false
  | c :: _ => c.isDigit

/-- The id-normalization step of `Element::fix` (src/page/types.rs lines
105-112): an empty id is replaced by the next generated uuid, prefixed
with `"id_"` when its first character is a digit; a non-empty id is kept,
and the uuid counter advances only when a uuid was drawn. -/
def fixId (g : Nat → String) (i : String) (n : Nat) : String × Nat :=
  if i = "" then
    (if startsWithDigit (g n) then "id_" ++ g n else g n, n + 1)
  else (i, n)

mutual

/-- From src/page/types.rs lines 104-116: `Element::fix`.  `g` models
`uuid::Uuid::new_v4().to_string()` as a stream of fresh strings indexed by
a counter threaded through the traversal.  Only an element whose id is
empty receives a generated id, and only that freshly generated id is
prefixed with `"id_"` when its first character is a digit; a pre-existing
non-empty id is left untouched.  Children are fixed recursively. -/
def Element.fix (g : Nat → String) : Element → Nat → Element × Nat
  | .mk i wname d s cs, n =>
    (.mk (fixId g i n).1 wname d s (ElementList.fix g cs (fixId g i n).2).1,
     (ElementList.fix g cs (fixId g i n).2).2)

/-- `Element.fix` mapped over a child list, threading the uuid counter. -/
def ElementList.fix (g : Nat → String) : ElementList → Nat → ElementList × Nat
  | .nil, n => (.nil, n)
  | .cons c cs, n =>
    (.cons (Element.fix g c n).1 (ElementList.fix g cs (Element.fix g c n).2).1,
     (ElementList.fix g cs (Element.fix g c n).2).2)

end

/-- From src/page/types.rs lines 187-190: `Page::fix` maps `Element::fix`
over the page's children. -/
def Page.fix (g : Nat → String) (p : Page) (n : Nat) : Page × Nat :=
  let (cs, n2) := ElementList.fix g p.children n
  ({ p with children := cs }, n2)

mutual

/-- Every element of the tree has a non-empty id. -/
def idsNonEmpty : Element → Bool
  | .mk i _ _ _ cs => (i != "") && idsNonEmptyList cs

/-- `idsNonEmpty` over an element list. -/
def idsNonEmptyList : ElementList → Bool
  | .nil => true
  | .cons c cs => idsNonEmpty c && idsNonEmptyList cs

end

mutual

/-- No element of the tree has an id starting with a decimal digit. -/
def noDigitIds : Element → Bool
  | .mk i _ _ _ cs => (!startsWithDigit i) && noDigitIdsList cs

/-- `noDigitIds` over an element list. -/
def noDigitIdsList : ElementList → Bool
  | .nil => true
  | .cons c cs => noDigitIds c && noDigitIdsList cs

end

/-- From src/config.rs: `StoreConfig { name, store_type, url, path, tags }`. -/
structure StoreConfig where
  name : String
  store_type : String
  url : String
  path : String
  tags : List String
deriving DecidableEq

/-- From src/config.rs: `ServerConfig { port, host }`. -/
structure ServerConfig where
  port : Nat
  host : String
deriving DecidableEq

/-- From src/config.rs: `CacheConfig { backend, url }`. -/
structure CacheConfig where
  backend : String
  url : String
deriving DecidableEq

/-- From src/config.rs: `PdfConfig { chromium_path, temp_dir }`. -/
structure PdfConfig where
  chromium_path : String
  temp_dir : String
deriving DecidableEq

/-- From src/config.rs: the process-wide `Config`. -/
structure Config where
  debug : Bool
  server : ServerConfig
  stores : List StoreConfig
  pdf : Option PdfConfig
  cache : Option CacheConfig
deriving DecidableEq

/-- From src/config.rs lines 71-82: `Config::empty()`. -/
def Config.empty : Config :=
  { debug := false,
    server := { port := 8006, host := "0.0.0.0" },
    stores := [], pdf := none, cache := none }

/-- From src/config.rs lines 168-182: `ConfigManager::reload_config_static`.
`read_result` stands for `Config::read(path)` (file read plus YAML parse
plus postprocess).  On failure the function returns with the stored config
untouched; on success the whole stored value is replaced under the write
lock, so the stored config is always either the old or the new complete
value. -/
def reload_config_static (current : Config) (read_result : Except String Config) : Config :=
  match read_result with
  | .error _ => current
  | .ok c => c

/-- A storage backend as the federation sees it (src/store/traits.rs): the
two read operations the claims exercise, each able to fail (`.error`) or
miss (`.ok none`). -/
structure StoreModel where
  load_page : String → Except String (Option Page)
  load_widget : String → Except String (Option Widget)

/-- From src/store/factory.rs lines 24-30: `StoreFactory::get_store` is a
name lookup in the backend map. -/
def get_store (stores : List (String × StoreModel)) (name : String) : Option StoreModel :=
  lookupAssoc stores name

/-- Split a char list at the first occurrence of a separator; `none` when
the separator does not occur.  Models Rust `splitn(2, sep)` yielding fewer
than two fields exactly in the `none` case. -/
def splitFirst (sep : Char) : List Char → Option (List Char × List Char)
  | [] => none
  | c :: rest =>
    if c = sep then some ([], rest)
    else
      match splitFirst sep rest with
      | none => none
      | some (a, b) => some (c :: a, b)

/-- Split a char list at every occurrence of a separator.  Models Rust
`str::split(sep)`, which yields one (possibly empty) field more than the
number of separators. -/
def splitFields (sep : Char) : List Char → List (List Char)
  | [] => [[]]
  | c :: rest =>
    match splitFields sep rest with
    | [] => [[c]]
    | f :: fs => if c = sep then [] :: f :: fs else (c :: f) :: fs

/-- Rust `str::split(sep)` on strings. -/
def splitOnChar (sep : Char) (s : String) : List String :=
  (splitFields sep s.data).map (fun cs => String.mk cs)

/-- From src/store/factory.rs lines 37-43: `StoreFactory::split_path` splits
the path once on the first `/`; a path without `/` is an error. -/
def split_path (path : String) : Except String (String × String) :=
  match splitFirst '/' path.data with
  | none => .error ("Invalid path=" ++ path)
  | some (a, b) => .ok (String.mk a, String.mk b)

/-- The fallback loop of src/store/factory.rs lines 72-85: try each name of
the pipe-separated store spec in order; a name missing from the map is
skipped; a backend error propagates; the first `Some` page wins; when the
list is exhausted the not-found error carries the original path. -/
def factory_load_page_loop (stores : List (String × StoreModel)) (subpath : String)
    (orig_path : String) : List String → Except String (Option Page)
  | [] => .error ("Page not found in any store, path=" ++ orig_path)
  | name :: rest =>
    match get_store stores name with
    | none => factory_load_page_loop stores subpath orig_path rest
    | some st =>
      match st.load_page subpath with
      | .error e => .error e
      | .ok (some p) => .ok (some p)
      | .ok none => factory_load_page_loop stores subpath orig_path rest

/-- From src/store/factory.rs lines 69-86: `StoreFactory::load_page_definition`
splits the path, then runs the pipe-fallback loop over `store_spec.split('|')`. -/
def factory_load_page_definition (stores : List (String × StoreModel))
    (path : String) : Except String (Option Page) :=
  match split_path path with
  | .error e => .error e
  | .ok (store_spec, subpath) =>
    factory_load_page_loop stores subpath path (splitOnChar '|' store_spec)

/-- From src/store/factory.rs lines 58-67: `StoreFactory::load_widget_definition`
splits the path and looks the whole store spec up as a single name — there
is no pipe handling on this operation. -/
def factory_load_widget_definition (stores : List (String × StoreModel))
    (path : String) : Except String (Option Widget) :=
  match split_path path with
  | .error e => .error e
  | .ok (store_spec, subpath) =>
    match get_store stores store_spec with
    | none => .error ("Store for widget not found, path=" ++ path)
    | some st => st.load_widget subpath

/-- From src/page/types.rs: `WidgetResults { count, results }`. -/
structure WidgetResults where
  count : Nat
  results : List Widget
deriving DecidableEq

/-- From src/store/code.rs: `WidgetEditor::new()` with all fields at their
defaults, filled in by the `with_*` builder calls. -/
def WidgetEditor.new : WidgetEditor :=
  { editor_type := "", label := "", name := "", placeholder := "", options := [] }

/-- From src/store/code.rs lines 128-155: the `static_context` widget
returned by `CodeStore::load_widget_definition`. -/
def staticContextWidget : Widget :=
  { name := "static_context",
    description := "Static context",
    html := "\x7b% for child in context.children %\x7d\x7b\x7bchild\x7d\x7d\x7b% endfor %\x7d",
    css := "",
    icon := "static_context",
    editor :=
      [ { WidgetEditor.new with
            editor_type := "description", label := "Description",
            placeholder := "This variable will be added to the context for the children of this widget, and can be accessed in the template code" },
        { WidgetEditor.new with
            editor_type := "text", label := "Variable name", name := "key",
            placeholder := "Enter variable name" },
        { WidgetEditor.new with
            editor_type := "textarea", label := "Static JSON value", name := "value",
            placeholder := "Enter static JSON code" } ] }

/-- From src/store/code.rs lines 156-178: the `url_context` widget returned
by `CodeStore::load_widget_definition`. -/
def urlContextWidget : Widget :=
  { name := "url_context",
    description := "URL context",
    html := "\x7b% for child in context.children %\x7d\x7b\x7bchild\x7d\x7d\x7b% endfor %\x7d",
    css := "",
    icon := "url_context",
    editor :=
      [ { WidgetEditor.new with
            editor_type := "text", label := "Variable name", name := "key",
            placeholder := "Enter variable name" },
        { WidgetEditor.new with
            editor_type := "text", label := "URL", name := "url",
            placeholder := "Enter URL" } ] }

/-- From src/store/code.rs lines 126-183: `CodeStore::load_widget_definition`
matches the local path against the two built-in widget names (the source
wraps the result in `Ok`, never failing). -/
def code_load_widget_definition (path : String) : Option Widget :=
  if path = "static_context" then some staticContextWidget
  else if path = "url_context" then some urlContextWidget
  else none

/-- From src/store/code.rs lines 185-195: `CodeStore::get_widget_list`
returns the two built-in widgets (unwrapped from the loader) but hard-codes
`count: 1`. -/
def code_get_widget_list : WidgetResults :=
  { count := 1,
    results := [(code_load_widget_definition "static_context").getD default,
                (code_load_widget_definition "url_context").getD default] }

/-- An HTTP request as built by reqwest: the URL and the headers set on it
(`reqwest::header::CONTENT_TYPE` is the literal header name
`content-type`, `USER_AGENT` is `user-agent`). -/
structure HttpRequest where
  url : String
  headers : List (String × String)
deriving DecidableEq

/-- From src/store/code.rs lines 86-92: the request `url_context` sends on a
cache miss — a GET carrying the headers `content-type: application/json`
(the source sets `reqwest::header::CONTENT_TYPE`, not `ACCEPT`) and
`user-agent: page-viewer`. -/
def url_context_request (url : String) : HttpRequest :=
  { url := url,
    headers := [("content-type", "application/json"), ("user-agent", "page-viewer")] }

/-- From src/store/code.rs lines 58-117: `CodeStore::url_context`.  `http`
models the reqwest GET (network plus UTF-8 decoding of the body), `parse`
models `serde_json` parsing into an opaque value type `J`, `cacheSt` the
process-wide string cache.  On a hit the cached string is parsed; on a miss
the body fetched via `url_context_request` is first written to the cache
keyed by the URL and then parsed; the parsed value is bound under the
element's `key` in front of the ambient context.  The cache state is
returned alongside so the write-before-parse order is observable. -/
def url_context {J : Type} (http : HttpRequest → Except String String)
    (parse : String → Except String J) (e : Element) (ctx : List (String × J))
    (cacheSt : List (String × String)) :
    Except String (List (String × J)) × List (String × String) :=
  match lookupAssoc e.data "url" with
  | none => (.error "URL not found", cacheSt)
  | some url =>
    match lookupAssoc e.data "key" with
    | none => (.error "Key not found", cacheSt)
    | some key =>
      match lookupAssoc cacheSt url with
      | some cached =>
        match parse cached with
        | .error er => (.error er, cacheSt)
        | .ok v => (.ok ((key, v) :: ctx), cacheSt)
      | none =>
        match http (url_context_request url) with
        | .error er => (.error er, cacheSt)
        | .ok body =>
          let cacheSt2 := insertAssoc url body cacheSt
          match parse body with
          | .error er => (.error er, cacheSt2)
          | .ok v => (.ok ((key, v) :: ctx), cacheSt2)

/-- The process-wide cache handle of src/cache/cache.rs: either the
in-memory backend with its entries or the redis backend with its URL. -/
inductive CacheBackend where
  | inmem (entries : List (String × String))
  | redis (url : String)
deriving DecidableEq

/-- From src/cache/cache.rs lines 20-28: `set_cache`.  `redis_open` models
`redis::Client::open` (URL parsing).  An unknown backend name returns the
`Invalid cache backend` error before the handle is touched, so the
previously installed backend stays in place. -/
def set_cache (redis_open : String → Except String Unit) (current : CacheBackend)
    (backend url : String) : Except String Unit × CacheBackend :=
  if backend = "inmem" then (.ok (), .inmem [])
  else if backend = "redis" then
    match redis_open url with
    | .ok _ => (.ok (), .redis url)
    | .error e => (.error e, current)
  else (.error ("Invalid cache backend: " ++ backend), current)

/-- Association-list removal, modelling file deletion. -/
def removeAssoc {α : Type} (key : String) : List (String × α) → List (String × α)
  | [] => []
  | (k, v) :: rest => if k = key then rest else (k, v) :: removeAssoc key rest

/-- The file-backed store of src/store/file.rs: the capability flags derived
from the configured tags, plus the store directory contents.  `fs` maps an
on-disk file name to the YAML parse outcome of its contents; a missing key
is a failed `File::open`. -/
structure FileStore where
  name : String
  path : String
  has_widgets : Bool
  has_css_classes : Bool
  has_pages : Bool
  widgets : List (String × Widget)
  fs : List (String × Except String Page)

/-- From src/store/file.rs lines 45-65: `FileStore::new` sets the three
capability flags from the configured tag list (`config.tags.contains`).
The widget and css-class preloading is disk I/O, modelled by the `widgets`
and `fs` arguments. -/
def FileStore.make (cfg : StoreConfig) (widgets : List (String × Widget))
    (fs : List (String × Except String Page)) : FileStore :=
  { name := cfg.name, path := cfg.path,
    has_widgets := cfg.tags.contains "widgets",
    has_css_classes := cfg.tags.contains "css_classes",
    has_pages := cfg.tags.contains "pages",
    widgets := widgets, fs := fs }

/-- From src/store/file.rs: the on-disk file for a page local path,
`Path::new(&self.path).join(format!("<path>.yaml"))`. -/
def FileStore.page_file (st : FileStore) (path : String) : String :=
  st.path ++ "/" ++ path ++ ".yaml"

/-- From src/store/file.rs lines 208-227: `FileStore::load_page_definition`.
Without the `pages` tag it returns `Ok(None)` unconditionally; otherwise a
failed open is `Ok(None)` and a YAML parse failure propagates. -/
def FileStore.load_page_definition (st : FileStore) (path : String) :
    Except String (Option Page) :=
  if st.has_pages then
    match lookupAssoc st.fs (st.page_file path) with
    | none => .ok none
    | some (.error e) => .error e
    | some (.ok p) => .ok (some p)
  else .ok none

/-- From src/store/file.rs lines 229-237: `FileStore::save_page_definition`.
Without the `pages` tag it returns `Ok(())` without touching the
filesystem; otherwise it writes the serialized page (the success path of
`File::create` plus `serde_yaml::to_writer`). -/
def FileStore.save_page_definition (st : FileStore) (path : String) (page : Page) :
    Except String Unit × FileStore :=
  if st.has_pages then
    (.ok (), { st with fs := insertAssoc (st.page_file path) (.ok page) st.fs })
  else (.ok (), st)

/-- From src/store/file.rs lines 239-250: `FileStore::delete_page_definition`.
Without the `pages` tag it returns `Ok(false)`; otherwise it removes the
file and reports whether it existed. -/
def FileStore.delete_page_definition (st : FileStore) (path : String) :
    Except String Bool × FileStore :=
  if st.has_pages then
    match lookupAssoc st.fs (st.page_file path) with
    | some _ => (.ok true, { st with fs := removeAssoc (st.page_file path) st.fs })
    | none => (.ok false, st)
  else (.ok false, st)

/-- Head of an `ElementList`. -/
def ElementList.head? : ElementList → Option Element
  | .nil => none
  | .cons c _ => some c

/-- Concrete page used by the federation fallback scenario. -/
def pageHome : Page := { Page.new with title := "home", path := "home" }

/-- Concrete widget stored under local path `x` in `storeB`. -/
def widgetX : Widget := { name := "x", description := "", icon := "", html := "", css := "", editor := [] }

/-- Concrete backend that misses on every read (an empty store). -/
def storeA : StoreModel :=
  { load_page := fun _ => .ok none, load_widget := fun _ => .ok none }

/-- Concrete backend holding the page `home` and the widget `x`. -/
def storeB : StoreModel :=
  { load_page := fun p => if p = "x" then .ok (some pageHome) else .ok none,
    load_widget := fun p => if p = "x" then .ok (some widgetX) else .ok none }

/-- Concrete element whose pre-existing id starts with a digit. -/
def elDigit : Element := .mk "1x" "test/text" [] [] .nil

/-- Concrete page holding `elDigit` and a child with an empty id. -/
def pageDigit : Page :=
  { Page.new with children := .cons (.mk "1x" "test/text" [] [] (.cons (.mk "" "test/text" [] [] .nil) .nil)) .nil }

/-- A concrete uuid stream: never empty, never digit-initial. -/
def genU : Nat → String := fun n => "f" ++ toString n

/-- Concrete `url_context` element with a URL and a context key. -/
def urlElement : Element :=
  .mk "u1" "code/url_context"
    [("url", "https://example.com/data.json"), ("key", "k")] [] .nil

/-- Concrete HTTP oracle: answers the demo URL with body `BODY`. -/
def demoHttp : HttpRequest → Except String String :=
  fun r => if r.url = "https://example.com/data.json" then .ok "BODY" else .error "network"

/-- Concrete JSON-parse oracle over `J := String`: tags its input. -/
def demoParse : String → Except String String := fun s => .ok ("P:" ++ s)

/-- Concrete config used by the reload scenario. -/
def newCfg : Config := { Config.empty with debug := true }

/-- Concrete store config carrying only the `widgets` tag. -/
def cfgNoPages : StoreConfig :=
  { name := "s", store_type := "file", url := "", path := "/data", tags := ["widgets"] }

/-- Concrete widget lookup for the debug-render scenario: resolves
`test/text` and `test/fail`. -/
def demoLookup : WidgetLookup := fun name =>
  if name = "test/text" then .ok (some { widgetX with name := "text", css := ".text" })
  else if name = "test/fail" then .ok (some { widgetX with name := "fail" })
  else .ok none

/-- Concrete engine for the debug-render scenario: fails on the `fail`
widget, renders a bracketed tag otherwise. -/
def demoEngine : Engine := fun w _ kids =>
  if w.name = "fail" then .error "boom"
  else .ok ("[" ++ w.name ++ ":" ++ String.join kids ++ "]")

/-- Concrete widget on which `demoEngine` fails. -/
def failW : Widget := { widgetX with name := "fail" }

/-- Concrete page for the debug-render scenario: a failing element between
two succeeding ones, one nested. -/
def demoPage : Page :=
  { Page.new with
      path := "/demo", title := "Demo",
      children :=
        .cons (.mk "a" "test/text" [] [] (.cons (.mk "b" "test/fail" [] [] .nil) .nil))
          (.cons (.mk "c" "test/text" [] [] .nil) .nil) }

/-!
Theorems.  Each claim of the specification is settled below; helper lemmas
come first, the claim theorems carry the claim ids.
-/

/-- C1: `get_css` joins the per-entry fragments in the map's iteration
order with no sorting step, contradicting the claim that fragments are
sorted lexicographically and that the CSS string depends only on the set of
entries: `cssPageBA` and `cssPageAB` hold the same entries (a permutation)
yet render different CSS strings, and the output on `cssPageBA` differs
from the sorted emission the claim specifies. -/
theorem C1_get_css_not_sorted :
    List.Perm cssPageBA.css_variables cssPageAB.css_variables ∧
    cssPageBA.get_css ≠ cssPageAB.get_css ∧
    cssPageBA.get_css ≠ get_css_sorted_spec cssPageBA ∧
    cssPageAB.get_css = get_css_sorted_spec cssPageAB := by
  refine ⟨?_, ?_, ?_, ?_⟩ <;> decide

/-- C7: on a hot-reload, a failed read or parse of the new file leaves the
stored config unchanged, a successful one replaces the stored value as a
whole, and in every case the stored value is either the old complete
config or the new complete config, never a mixture. -/
theorem C7_reload_atomic (current : Config) (read_result : Except String Config) :
    (∀ e, read_result = .error e → reload_config_static current read_result = current) ∧
    (∀ c, read_result = .ok c → reload_config_static current read_result = c) ∧
    (reload_config_static current read_result = current ∨
      ∃ c, read_result = .ok c ∧ reload_config_static current read_result = c) := by
  cases read_result <;> simp [reload_config_static]

/-- C7 witness: the reload transition evaluated at a failing read and at a
successful read of a concrete config. -/
theorem C7_reload_atomic_witness :
    reload_config_static Config.empty (.error "yaml error") = Config.empty ∧
    reload_config_static Config.empty (.ok newCfg) = newCfg :=
  ⟨(C7_reload_atomic Config.empty (.error "yaml error")).1 "yaml error" rfl,
   (C7_reload_atomic Config.empty (.ok newCfg)).2.1 newCfg rfl⟩

/-- C9: `set_cache` with a backend name other than `inmem` or `redis`
returns the invalid-backend error and leaves the process-wide handle
unchanged, so a subsequent `cache()` still returns the previously
installed backend. -/
theorem C9_set_cache_invalid_backend (redis_open : String → Except String Unit)
    (current : CacheBackend) (backend url : String)
    (h1 : backend ≠ "inmem") (h2 : backend ≠ "redis") :
    set_cache redis_open current backend url =
      (.error ("Invalid cache backend: " ++ backend), current) := by
  simp [set_cache, h1, h2]

/-- C9 witness: `set_cache` evaluated at the unknown backend `memcached`
over an installed redis handle. -/
theorem C9_set_cache_invalid_backend_witness :
    set_cache (fun _ => .ok ()) (.redis "redis://h") "memcached" "u" =
      (.error ("Invalid cache backend: " ++ "memcached"), .redis "redis://h") :=
  C9_set_cache_invalid_backend (fun _ => .ok ()) (.redis "redis://h") "memcached" "u"
    (by decide) (by decide)

/-- C10: a file store built from a config whose tags do not include
`pages` reports success on `save_page_definition` without writing, returns
`false` from `delete_page_definition`, and `None` from
`load_page_definition` on every path — in particular a load after a
reported-successful save still returns `None`. -/
theorem C10_no_pages_tag (cfg : StoreConfig) (widgets : List (String × Widget))
    (fs : List (String × Except String Page))
    (h : cfg.tags.contains "pages" = false) :
    (∀ p page, FileStore.save_page_definition (FileStore.make cfg widgets fs) p page =
        (.ok (), FileStore.make cfg widgets fs)) ∧
    (∀ p, FileStore.delete_page_definition (FileStore.make cfg widgets fs) p =
        (.ok false, FileStore.make cfg widgets fs)) ∧
    (∀ p, FileStore.load_page_definition (FileStore.make cfg widgets fs) p = .ok none) ∧
    (∀ p page q, FileStore.load_page_definition
        (FileStore.save_page_definition (FileStore.make cfg widgets fs) p page).2 q =
        .ok none) := by
  have hp : (FileStore.make cfg widgets fs).has_pages = false := h
  refine ⟨?_, ?_, ?_, ?_⟩
  · intro p page
    simp [FileStore.save_page_definition, hp]
  · intro p
    simp [FileStore.delete_page_definition, hp]
  · intro p
    simp [FileStore.load_page_definition, hp]
  · intro p page q
    simp [FileStore.save_page_definition, FileStore.load_page_definition, hp]

/-- C10 witness: on the concrete pages-less store, a load directly after a
reported-successful save still misses. -/
theorem C10_no_pages_tag_witness :
    FileStore.load_page_definition
      (FileStore.save_page_definition (FileStore.make cfgNoPages [] []) "home" pageHome).2
      "home" = .ok none :=
  (C10_no_pages_tag cfgNoPages [] [] (by decide)).2.2.2 "home" pageHome "home"

/-- C3: the claim fails for `load_widget_definition` — the widget read path
does not split the store spec on `|`, so with store `b` holding widget `x`
and store `a` empty, `"a|b/x"` produces a store-not-found error instead of
`b`'s result. -/
theorem C3_widget_no_fallback_counterexample :
    storeA.load_widget "x" = .ok none ∧
    storeB.load_widget "x" = .ok (some widgetX) ∧
    factory_load_widget_definition [("a", storeA), ("b", storeB)] "a|b/x" =
      .error "Store for widget not found, path=a|b/x" ∧
    factory_load_widget_definition [("a", storeA), ("b", storeB)] "a|b/x" ≠
      .ok (some widgetX) := by
  have heq : factory_load_widget_definition [("a", storeA), ("b", storeB)] "a|b/x" =
      .error "Store for widget not found, path=a|b/x" := rfl
  refine ⟨rfl, rfl, heq, ?_⟩
  intro h
  rw [heq] at h
  exact Except.noConfusion h

/-- C3 amended: only `load_page_definition` implements the pipe fallback:
listed stores are tried in order, the first `Some` wins, and all-`None`
yields the not-found error; `load_widget_definition` treats the whole
store spec as a single store name, so a piped spec fails with a
store-not-found error. -/
theorem C3_amended_fallback (sa sb : StoreModel) :
    (∀ p, sa.load_page "x" = .ok (some p) →
      factory_load_page_definition [("a", sa), ("b", sb)] "a|b/x" = .ok (some p)) ∧
    (∀ p, sa.load_page "x" = .ok none → sb.load_page "x" = .ok (some p) →
      factory_load_page_definition [("a", sa), ("b", sb)] "a|b/x" = .ok (some p)) ∧
    (sa.load_page "x" = .ok none → sb.load_page "x" = .ok none →
      factory_load_page_definition [("a", sa), ("b", sb)] "a|b/x" =
        .error "Page not found in any store, path=a|b/x") ∧
    factory_load_widget_definition [("a", sa), ("b", sb)] "a|b/x" =
      .error "Store for widget not found, path=a|b/x" := by
  have hs : split_path "a|b/x" = .ok ("a|b", "x") := rfl
  have hsp : splitOnChar '|' "a|b" = ["a", "b"] := rfl
  have hga : get_store [("a", sa), ("b", sb)] "a" = some sa := rfl
  have hgb : get_store [("a", sa), ("b", sb)] "b" = some sb := rfl
  have hgn : get_store [("a", sa), ("b", sb)] "a|b" = none := rfl
  refine ⟨?_, ?_, ?_, ?_⟩
  · intro p hpa
    simp only [factory_load_page_definition, hs, hsp, factory_load_page_loop, hga, hpa]
  · intro p hpa hpb
    simp only [factory_load_page_definition, hs, hsp, factory_load_page_loop, hga, hgb,
      hpa, hpb]
  · intro hpa hpb
    simp only [factory_load_page_definition, hs, hsp, factory_load_page_loop, hga, hgb,
      hpa, hpb]
    rfl
  · simp only [factory_load_widget_definition, hs, hgn]
    rfl

/-- C3 witness: on the concrete stores, `a` misses page `x`, `b` holds it,
and the federation read of `"a|b/x"` returns `b`'s page. -/
theorem C3_amended_fallback_witness :
    storeA.load_page "x" = .ok none ∧
    storeB.load_page "x" = .ok (some pageHome) ∧
    factory_load_page_definition [("a", storeA), ("b", storeB)] "a|b/x" =
      .ok (some pageHome) :=
  ⟨rfl, rfl, (C3_amended_fallback storeA storeB).2.1 pageHome rfl rfl⟩

/-- The `"id_"`-prefixed form of a generated id never starts with a digit. -/
theorem startsWithDigit_id_append (u : String) :
    startsWithDigit ("id_" ++ u) = false := by
  have hd : ("id_" ++ u).data = 'i' :: 'd' :: '_' :: u.data := rfl
  simp [startsWithDigit, hd]

/-- The `"id_"`-prefixed form of a generated id is non-empty. -/
theorem id_append_ne_empty (u : String) : ("id_" ++ u) ≠ "" := by
  intro h
  have hd : 'i' :: 'd' :: '_' :: u.data = ([] : List Char) := congrArg String.data h
  exact List.noConfusion hd

/-- Under a non-empty uuid stream, the normalized id is never empty. -/
theorem fixId_ne_empty (g : Nat → String) (hg : ∀ n, g n ≠ "") (i : String) (n : Nat) :
    (fixId g i n).1 ≠ "" := by
  by_cases hi : i = ""
  · simp only [fixId, hi, if_pos rfl]
    by_cases hd : startsWithDigit (g n) = true
    · simp [hd, id_append_ne_empty]
    · simp [hd, hg n]
  · simp [fixId, hi]

mutual

/-- After `Element.fix` every id in the tree is non-empty, provided the
uuid stream never yields the empty string. -/
theorem fix_ids_nonempty (g : Nat → String) (hg : ∀ n, g n ≠ "") :
    ∀ (e : Element) (n : Nat), idsNonEmpty (Element.fix g e n).1 = true
  | .mk i w d s cs, n => by
    have hcs := fixList_ids_nonempty g hg cs (fixId g i n).2
    have h1 : (fixId g i n).1 ≠ "" := fixId_ne_empty g hg i n
    simp [Element.fix, idsNonEmpty, hcs, h1, Bool.and_eq_true, bne_iff_ne]

/-- `fix_ids_nonempty` over an element list. -/
theorem fixList_ids_nonempty (g : Nat → String) (hg : ∀ n, g n ≠ "") :
    ∀ (es : ElementList) (n : Nat), idsNonEmptyList (ElementList.fix g es n).1 = true
  | .nil, _ => by simp [ElementList.fix, idsNonEmptyList]
  | .cons c cs, n => by
    have h1 := fix_ids_nonempty g hg c n
    have h2 := fixList_ids_nonempty g hg cs (Element.fix g c n).2
    simp [ElementList.fix, idsNonEmptyList, h1, h2, Bool.and_eq_true]

end

/-- C4 counterexample: after `Page.fix` on the concrete page, the first
element still carries its pre-existing digit-initial id `1x`, so the
claimed no-digit-initial invariant fails even though every id is
non-empty. -/
theorem C4_digit_id_counterexample :
    ((Page.fix genU pageDigit 0).1.children.head?.map Element.id) = some "1x" ∧
    startsWithDigit "1x" = true ∧
    noDigitIdsList (Page.fix genU pageDigit 0).1.children = false ∧
    idsNonEmptyList (Page.fix genU pageDigit 0).1.children = true := by
  refine ⟨rfl, rfl, rfl, rfl⟩

/-- C4 amended: after `Page.fix`, every reachable element has a non-empty
id (given a non-empty uuid stream); an element whose id was empty receives
a generated id that never starts with a digit (the `"id_"` prefix is added
exactly when the uuid starts with one); but an element whose id was
already non-empty keeps it verbatim — in particular a pre-existing
digit-initial id survives. -/
theorem C4_amended_fix (g : Nat → String) (hg : ∀ n, g n ≠ "") :
    (∀ (p : Page) (n : Nat), idsNonEmptyList (Page.fix g p n).1.children = true) ∧
    (∀ (e : Element) (n : Nat), e.id = "" →
      startsWithDigit ((Element.fix g e n).1.id) = false ∧
        (Element.fix g e n).1.id ≠ "") ∧
    (∀ (e : Element) (n : Nat), e.id ≠ "" → (Element.fix g e n).1.id = e.id) := by
  refine ⟨?_, ?_, ?_⟩
  · intro p n
    exact fixList_ids_nonempty g hg p.children n
  · intro e n he
    cases e with
    | mk i w d s cs =>
      have hi : i = "" := he
      refine ⟨?_, ?_⟩
      · simp only [Element.fix, Element.id, fixId, hi, if_pos rfl]
        by_cases hd : startsWithDigit (g n) = true
        · simp [hd, startsWithDigit_id_append]
        · simp [hd]
      · simp only [Element.fix, Element.id]
        exact fixId_ne_empty g hg i n
  · intro e n he
    cases e with
    | mk i w d s cs =>
      have hi : i ≠ "" := he
      simp [Element.fix, Element.id, fixId, hi]

/-- C4 witness: the amended theorem evaluated at a concrete uuid stream and
the concrete page, whose empty-id child gets a non-empty generated id. -/
theorem C4_amended_fix_witness :
    (∀ n : Nat, (fun _ : Nat => "w7") n ≠ "") ∧
    idsNonEmptyList (Page.fix (fun _ : Nat => "w7") pageDigit 0).1.children = true :=
  ⟨fun _ => by show "w7" ≠ ""; decide,
   (C4_amended_fix (fun _ : Nat => "w7") (fun _ => by show "w7" ≠ ""; decide)).1 pageDigit 0⟩

/-- C5: the request `url_context` sends on a cache miss carries the headers
`content-type: application/json` and `user-agent: page-viewer` and no
`accept` header — diverging from the claimed `Accept: application/json` —
while the rest of the claimed behaviour holds on the concrete inputs: on a
miss the raw body is fetched, stored in the cache keyed by the URL, parsed,
and bound under the element's key; on a hit the cached string is parsed
with the cache left unchanged. -/
theorem C5_url_context_behaviour :
    (url_context_request "https://example.com/data.json").headers =
      [("content-type", "application/json"), ("user-agent", "page-viewer")] ∧
    lookupAssoc (url_context_request "https://example.com/data.json").headers "accept" =
      none ∧
    url_context demoHttp demoParse urlElement ([] : List (String × String)) [] =
      (.ok [("k", "P:BODY")], [("https://example.com/data.json", "BODY")]) ∧
    url_context demoHttp demoParse urlElement ([] : List (String × String))
        [("https://example.com/data.json", "CACHED")] =
      (.ok [("k", "P:CACHED")], [("https://example.com/data.json", "CACHED")]) := by
  refine ⟨rfl, rfl, rfl, rfl⟩

/-- C6: the code backend resolves exactly the two built-in widget paths,
and its widget list returns both widgets — but with the hard-coded count 1
instead of the number of returned widgets. -/
theorem C6_code_widget_catalog :
    code_load_widget_definition "static_context" = some staticContextWidget ∧
    code_load_widget_definition "url_context" = some urlContextWidget ∧
    (∀ p : String, (code_load_widget_definition p).isSome =
      (p == "static_context" || p == "url_context")) ∧
    code_get_widget_list.results = [staticContextWidget, urlContextWidget] ∧
    code_get_widget_list.results.length = 2 ∧
    code_get_widget_list.count = 1 := by
  refine ⟨rfl, rfl, ?_, rfl, rfl, rfl⟩
  intro p
  by_cases h1 : p = "static_context"
  · simp [code_load_widget_definition, h1]
  · by_cases h2 : p = "url_context"
    · simp [code_load_widget_definition, h1, h2]
    · simp [code_load_widget_definition, h1, h2]

/-- Looking up the key just inserted returns the inserted value. -/
theorem lookupAssoc_insertAssoc_self {α : Type} (k : String) (v : α)
    (m : List (String × α)) : lookupAssoc (insertAssoc k v m) k = some v := by
  induction m with
  | nil => simp [insertAssoc, lookupAssoc]
  | cons kv rest ih =>
    obtain ⟨k', v'⟩ := kv
    by_cases h : k' = k
    · simp [insertAssoc, h, lookupAssoc]
    · simp [insertAssoc, h, lookupAssoc, ih]

/-- Inserting under one key does not change the lookup of another. -/
theorem lookupAssoc_insertAssoc_ne {α : Type} (k k' : String) (v : α)
    (m : List (String × α)) (h : k ≠ k') :
    lookupAssoc (insertAssoc k v m) k' = lookupAssoc m k' := by
  induction m with
  | nil => simp [insertAssoc, lookupAssoc, h]
  | cons kv rest ih =>
    obtain ⟨k2, v2⟩ := kv
    by_cases h2 : k2 = k
    · simp [insertAssoc, h2, lookupAssoc, h]
    · simp [insertAssoc, h2, lookupAssoc, ih]

/-- A `#`-prefixed selector key is never a `--`-prefixed variable key. -/
theorem hash_key_ne_dash_key (x y : String) : ("#" ++ x) ≠ ("--" ++ y) := by
  intro h
  have hd : '#' :: x.data = '-' :: '-' :: y.data := congrArg String.data h
  injection hd with h1 _
  exact absurd h1 (by decide)

/-- The first component of `render_widget` is exactly the engine outcome. -/
theorem render_widget_fst (engine : Engine) (w : Widget) (e : Element)
    (kids : List String) (st : RState) :
    (render_widget engine w e kids st).1 = engine w e kids := by
  unfold render_widget
  cases engine w e kids <;> simp

/-- `render_widget` never touches the error list. -/
theorem render_widget_errors (engine : Engine) (w : Widget) (e : Element)
    (kids : List String) (st : RState) :
    (render_widget engine w e kids st).2.errors = st.errors := by
  unfold render_widget
  cases engine w e kids with
  | error err => simp
  | ok out =>
    by_cases h1 : e.id = ""
    · simp [h1]
    · by_cases h2 : e.style.isEmpty
      · simp [h1, h2]
      · simp [h1, h2]

/-- C8: when the engine fails on a widget (template compile or render
error), `render_widget` returns that error with the renderer state — in
particular the css_variables map — completely unchanged; the
`--<widget.name>` entry is present only after a successful render. -/
theorem C8_render_widget_css_on_error (engine : Engine) (w : Widget) (e : Element)
    (kids : List String) (st : RState) :
    (∀ err, engine w e kids = .error err →
      render_widget engine w e kids st = (.error err, st)) ∧
    (∀ out, engine w e kids = .ok out →
      (render_widget engine w e kids st).1 = .ok out ∧
      lookupAssoc (render_widget engine w e kids st).2.css_variables ("--" ++ w.name) =
        some w.css) := by
  refine ⟨?_, ?_⟩
  · intro err h
    simp [render_widget, h]
  · intro out h
    refine ⟨?_, ?_⟩
    · simp [render_widget, h]
    · simp only [render_widget, h]
      by_cases h1 : e.id = ""
      · simp [h1, lookupAssoc_insertAssoc_self]
      · by_cases h2 : e.style.isEmpty
        · simp [h1, h2, lookupAssoc_insertAssoc_self]
        · have hne := hash_key_ne_dash_key e.id w.name
          simp [h1, h2, lookupAssoc_insertAssoc_ne _ _ _ _ hne,
            lookupAssoc_insertAssoc_self]

/-- C8 witness: the failing engine evaluated on a concrete widget leaves a
concrete one-entry state untouched. -/
theorem C8_render_widget_css_on_error_witness :
    demoEngine failW elDigit [] = .error "boom" ∧
    render_widget demoEngine failW elDigit [] ⟨[("--x", "X")], []⟩ =
      (.error "boom", ⟨[("--x", "X")], []⟩) :=
  ⟨rfl,
   (C8_render_widget_css_on_error demoEngine failW elDigit [] ⟨[("--x", "X")], []⟩).1
     "boom" rfl⟩

mutual

/-- In debug mode, when every widget of the tree resolves, rendering an
element succeeds with the `debugOut` output and appends exactly the
`errsOf` error messages. -/
theorem render_element_debug_ok (lookup : WidgetLookup) (engine : Engine)
    (esc : String → String) :
    ∀ (e : Element) (st : RState), allResolve lookup e = true →
      (render_element lookup engine esc true e st).1 =
        .ok (debugOut lookup engine esc e) ∧
      (render_element lookup engine esc true e st).2.errors =
        st.errors ++ errsOf lookup engine esc e
  | .mk i w d s cs, st, h => by
    simp only [allResolve, Bool.and_eq_true] at h
    obtain ⟨h1, h2⟩ := h
    cases hl : lookup w with
    | error err =>
      rw [hl] at h1
      simp at h1
    | ok o =>
      cases o with
      | none =>
        rw [hl] at h1
        simp at h1
      | some wd =>
        have hwof : widgetOf lookup (.mk i w d s cs) = wd := by
          simp [widgetOf, Element.widget, hl]
        obtain ⟨hc1, hc2⟩ := render_children_debug_ok lookup engine esc cs st h2
        rcases hP : render_children lookup engine esc true cs st with ⟨res, st1⟩
        rw [hP] at hc1 hc2
        simp only at hc1 hc2
        subst hc1
        have hfst := render_widget_fst engine wd (.mk i w d s cs)
          (debugOuts lookup engine esc cs) st1
        have herr := render_widget_errors engine wd (.mk i w d s cs)
          (debugOuts lookup engine esc cs) st1
        rcases hW : render_widget engine wd (.mk i w d s cs)
            (debugOuts lookup engine esc cs) st1 with ⟨wres, st2⟩
        rw [hW] at hfst herr
        simp only at hfst herr
        cases hE : engine wd (.mk i w d s cs) (debugOuts lookup engine esc cs) with
        | ok out =>
          rw [hE] at hfst
          subst hfst
          refine ⟨?_, ?_⟩ <;>
            simp [render_element, hl, hP, hW, debugOut, errsOf, hwof, hE, herr, hc2]
        | error err =>
          rw [hE] at hfst
          subst hfst
          refine ⟨?_, ?_⟩ <;>
            simp [render_element, hl, hP, hW, debugOut, errsOf, hwof, hE, herr, hc2]

/-- `render_element_debug_ok` over an element list. -/
theorem render_children_debug_ok (lookup : WidgetLookup) (engine : Engine)
    (esc : String → String) :
    ∀ (es : ElementList) (st : RState), allResolveList lookup es = true →
      (render_children lookup engine esc true es st).1 =
        .ok (debugOuts lookup engine esc es) ∧
      (render_children lookup engine esc true es st).2.errors =
        st.errors ++ errsOfList lookup engine esc es
  | .nil, st, _ => by
    simp [render_children, debugOuts, errsOfList]
  | .cons c cs, st, h => by
    simp only [allResolveList, Bool.and_eq_true] at h
    obtain ⟨h1, h2⟩ := h
    obtain ⟨he1, he2⟩ := render_element_debug_ok lookup engine esc c st h1
    rcases hP : render_element lookup engine esc true c st with ⟨res, st1⟩
    rw [hP] at he1 he2
    simp only at he1 he2
    subst he1
    obtain ⟨hr1, hr2⟩ := render_children_debug_ok lookup engine esc cs st1 h2
    rcases hQ : render_children lookup engine esc true cs st1 with ⟨res2, st2⟩
    rw [hQ] at hr1 hr2
    simp only at hr1 hr2
    subst hr1
    refine ⟨?_, ?_⟩ <;>
      simp [render_children, hP, hQ, debugOuts, errsOfList, he2, hr2]

end

/-- C2: in debug mode, when the only failures a page render can hit are
engine (template or data) failures — every referenced widget resolves —
`render_page` returns a `RenderedPage` instead of propagating an error,
the number of entries appended to its `errors` list equals the number of
engine failures encountered, the body is the concatenation of the
per-child debug outputs, and every failed element's output is exactly the
fragment `<pre style="color:red;">` + escaped error + `</pre>`. -/
theorem C2_debug_mode_errors (lookup : WidgetLookup) (engine : Engine)
    (esc : String → String) (page : Page)
    (h : allResolveList lookup page.children = true) :
    ∃ rp : RenderedPage,
      render_page lookup engine esc true page = .ok rp ∧
      rp.errors.length = failCountList lookup engine esc page.children ∧
      rp.body = String.join (debugOuts lookup engine esc page.children) ∧
      ∀ (e : Element) (err : String),
        engine (widgetOf lookup e) e (debugOuts lookup engine esc e.children) =
          .error err →
        debugOut lookup engine esc e =
          "<pre style=\"color:red;\">" ++ esc err ++ "</pre>" := by
  obtain ⟨hk1, hk2⟩ := render_children_debug_ok lookup engine esc page.children ⟨[], []⟩ h
  rcases hQ : render_children lookup engine esc true page.children ⟨[], []⟩ with ⟨res, st⟩
  rw [hQ] at hk1 hk2
  simp only at hk1 hk2
  subst hk1
  refine ⟨{ RenderedPage.new with
            path := page.path,
            title := page.title,
            body := String.join (debugOuts lookup engine esc page.children),
            meta := page.meta,
            css_variables := st.css_variables,
            errors := st.errors }, ?_, ?_, ?_, ?_⟩
  · simp only [render_page, hQ]
  · simp [failCountList, hk2]
  · simp
  · intro e err hE
    cases e with
    | mk i w d s cs =>
      simp only [Element.children] at hE
      simp [debugOut, hE]

/-- C2 witness: the debug-mode guarantee evaluated on the concrete page
with one failing element among three; exactly one error is collected. -/
theorem C2_debug_mode_errors_witness :
    allResolveList demoLookup demoPage.children = true ∧
    failCountList demoLookup demoEngine (fun s => s) demoPage.children = 1 ∧
    (∃ rp : RenderedPage,
      render_page demoLookup demoEngine (fun s => s) true demoPage = .ok rp ∧
      rp.errors.length = failCountList demoLookup demoEngine (fun s => s) demoPage.children ∧
      rp.body = String.join (debugOuts demoLookup demoEngine (fun s => s) demoPage.children) ∧
      ∀ (e : Element) (err : String),
        demoEngine (widgetOf demoLookup e) e
            (debugOuts demoLookup demoEngine (fun s => s) e.children) = .error err →
        debugOut demoLookup demoEngine (fun s => s) e =
          "<pre style=\"color:red;\">" ++ (fun s => s) err ++ "</pre>") :=
  ⟨by decide, by decide,
   C2_debug_mode_errors demoLookup demoEngine (fun s => s) demoPage (by decide)⟩

end Coralpages
